import Mathlib

/-!
Verification of the multi-backend dispatch core of the `ai-marketing-agent`
repository (TypeScript).  The development shallowly embeds the relevant parts
of the source:

* `libs/social-plugin/src/lib/social-plugin.ts` — `SocialPlugin.publish`,
  `publishWithRetry`, `validatePost`;
* `libs/social-plugin/src/lib/social-core.ts` — `SocialCore.validatePost`
  (the per-platform validation hook inherited by every adapter);
* `libs/social-plugin/src/lib/platforms/tiktok-platform.ts` and
  `twitter-platform.ts` — the adapters' `publish` methods;
* the llm-plugin sources — `LlmPlugin.ask`, `LlmPlugin.askWithRetry`,
  `LlmCore.makeRequest`, `LlmCore.createLlmError` / `isRetryableError`.

Asynchronous calls that either resolve or reject are embedded as
`Except String _` (the thrown value's `.message` string); a sequence of calls
to the same endpoint is a function from the (1-based) attempt index to that
call's outcome.  `Date` timestamps are abstract `Nat` ticks supplied by the
caller.
-/

namespace MarketingAgent

/-! ## JavaScript truthiness helpers

`Option String` models a JS value that may be `undefined`; both `undefined`
and the empty string are falsy. -/

/-- Model of `String.prototype.trim`: strip leading and trailing whitespace.
Defined over the character list so that concrete instances evaluate. -/
def jsTrim (s : String) : String :=
  ⟨((s.data.dropWhile Char.isWhitespace).reverse.dropWhile Char.isWhitespace).reverse⟩

/-- Truthiness of an optional JS string: `undefined` and the empty string are
falsy, every other string is truthy. -/
def jsTruthy : Option String → Bool
  | none => false
  | some s => !(s == "")

/-- JS `v || d` on an optional string: yields `d` when `v` is `undefined` or
the empty string. -/
def jsOrElse (v : Option String) (d : String) : String :=
  match v with
  | none => d
  | some s => if s == "" then d else s

/-! ## Social data model (`social-core.ts`) -/

/-- The five platform kinds of `PlatformType` in `platform-factory.ts`. -/
inductive PlatformType where
  | facebook
  | instagram
  | linkedin
  | tiktok
  | twitter
deriving DecidableEq, Repr

/-- String name of a platform kind (the union members of `PlatformType`). -/
def platformName : PlatformType → String
  | .facebook => "facebook"
  | .instagram => "instagram"
  | .linkedin => "linkedin"
  | .tiktok => "tiktok"
  | .twitter => "twitter"

/-- `SocialPost` of `social-core.ts`.  `content` is typed `string` in TS but
the code guards against it being absent (`!post.content`), so it is embedded
as `Option String`; `media` likewise. -/
structure SocialPost where
  content : Option String
  media : Option (List String)
  hashtags : Option (List String)
deriving DecidableEq, Repr

/-- `SocialResponse` of `social-core.ts`; `timestamp` is an abstract tick. -/
structure SocialResponse where
  success : Bool
  postId : Option String := none
  url : Option String := none
  error : Option String := none
  platform : String
  timestamp : Nat
deriving DecidableEq, Repr

/-! ## Validation (`SocialPlugin.validatePost`, `SocialCore.validatePost`) -/

/-- Error message pushed by `SocialPlugin.validatePost` for empty content. -/
def contentEmptyMsg : String := "Post content cannot be empty"

/-- Error message pushed by `SocialPlugin.validatePost` for over-long content. -/
def contentTooLongMsg : String := "Post content exceeds maximum length (5000 characters)"

/-- Error message pushed by `SocialPlugin.validatePost` for too many media. -/
def tooManyMediaMsg : String := "Too many media files (maximum 10)"

/-- Message thrown by `SocialCore.validatePost` for over-long content (note:
no "(5000 characters)" suffix, unlike the plugin-level message). -/
def coreTooLongMsg : String := "Post content exceeds maximum length"

/-- Condition of `!post.content || post.content.trim().length === 0`. -/
def contentEmptyCheck (c : Option String) : Bool :=
  !(jsTruthy c) ||
    (match c with
     | some s => (jsTrim s).length == 0
     | none => false)

/-- Condition of `post.content.length > 5000` (used guarded by truthiness in
the plugin and unguarded in `SocialCore.validatePost`, where the preceding
check already ensured the content is a truthy string). -/
def lengthOver5000 (c : Option String) : Bool :=
  match c with
  | some s => 5000 < s.length
  | none => false

/-- Condition of `post.content && post.content.length > 5000`. -/
def contentTooLongCheck (c : Option String) : Bool :=
  jsTruthy c && lengthOver5000 c

/-- Condition of `post.media && post.media.length > 10` (a JS array is always
truthy, so only presence and length matter). -/
def tooManyMediaCheck (m : Option (List String)) : Bool :=
  match m with
  | none => false
  | some l => 10 < l.length

/-- `SocialCore.validatePost` (social-core.ts, lines 92-104): throws the FIRST
violated rule's message, or returns normally.  `some msg` models the throw. -/
def coreValidatePost (post : SocialPost) : Option String :=
  if contentEmptyCheck post.content then some contentEmptyMsg
  else if lengthOver5000 post.content then some coreTooLongMsg
  else if tooManyMediaCheck post.media then some tooManyMediaMsg
  else none

/-- Basic (plugin-level) validation errors of `SocialPlugin.validatePost`,
collected in source order without short-circuiting. -/
def baseErrors (post : SocialPost) : List String :=
  (if contentEmptyCheck post.content then [contentEmptyMsg] else []) ++
  (if contentTooLongCheck post.content then [contentTooLongMsg] else []) ++
  (if tooManyMediaCheck post.media then [tooManyMediaMsg] else [])

/-- Platform-specific validation errors of `SocialPlugin.validatePost`: for
each configured platform the plugin calls the platform's `validatePost` hook
(every shipped adapter inherits `SocialCore.validatePost`) and on a throw
pushes the message prefixed with the platform name. -/
def hookErrors (platforms : List PlatformType) (post : SocialPost) : List String :=
  platforms.filterMap
    (fun pt => (coreValidatePost post).map (fun m => platformName pt ++ ": " ++ m))

/-- `SocialPlugin.validatePost` (social-plugin.ts, lines 187-216): basic checks
followed by every configured platform's hook; `valid` iff no error collected. -/
def validatePost (platforms : List PlatformType) (post : SocialPost) :
    Bool × List String :=
  let errors := baseErrors post ++ hookErrors platforms post
  (errors.isEmpty, errors)

/-! ## Retry-wrapped publishing (`SocialPlugin.publishWithRetry`)

A platform's behaviour is a function from the 1-based call index to that
call's outcome: `Except.ok r` when `platform.publish(post)` resolves with the
`SocialResponse` `r`, `Except.error m` when it rejects with message `m`.
The recursion of `publishWithRetry` is bounded by `retryAttempts - attempt`;
the embedding carries that bound as an explicit `fuel` argument (initialised
to `retryAttempts`, which always suffices because the recursion stops as soon
as `attempt < retryAttempts` fails). -/

/-- `SocialPlugin.publishWithRetry` (social-plugin.ts, lines 111-128): try the
call; on a rejection retry while `attempt < this.retryAttempts`, else rethrow
the last error. -/
def publishWithRetryFuel (retryAttempts : Nat)
    (beh : Nat → Except String SocialResponse) (attempt : Nat) :
    Nat → Except String SocialResponse
  | 0 =>
    match beh attempt with
    | .ok r => .ok r
    | .error e => .error e
  | fuel + 1 =>
    match beh attempt with
    | .ok r => .ok r
    | .error e =>
      if attempt < retryAttempts then
        publishWithRetryFuel retryAttempts beh (attempt + 1) fuel
      else
        .error e

/-- Entry point of `publishWithRetry`: first call is attempt 1. -/
def publishWithRetry (retryAttempts : Nat)
    (beh : Nat → Except String SocialResponse) : Except String SocialResponse :=
  publishWithRetryFuel retryAttempts beh 1 retryAttempts

/-- Number of calls to `platform.publish` that `publishWithRetryFuel` makes
from `attempt` on (instrumentation of the same recursion). -/
def publishAttemptsFuel (retryAttempts : Nat)
    (beh : Nat → Except String SocialResponse) (attempt : Nat) : Nat → Nat
  | 0 => 1
  | fuel + 1 =>
    match beh attempt with
    | .ok _ => 1
    | .error _ =>
      if attempt < retryAttempts then
        1 + publishAttemptsFuel retryAttempts beh (attempt + 1) fuel
      else
        1

/-- Total number of dispatch attempts `publishWithRetry` actually makes. -/
def publishAttempts (retryAttempts : Nat)
    (beh : Nat → Except String SocialResponse) : Nat :=
  publishAttemptsFuel retryAttempts beh 1 retryAttempts

/-! ## Fan-out (`SocialPlugin.publish`) -/

/-- `PublishResult` of social-plugin.ts; the two `Map`s become association
lists in insertion order. -/
structure PublishResult where
  success : Bool
  results : List (PlatformType × SocialResponse)
  errors : List (PlatformType × String)
  totalAttempts : Nat
  successfulPlatforms : List PlatformType
  failedPlatforms : List PlatformType
deriving DecidableEq, Repr

/-- Initial accumulator of `SocialPlugin.publish`. -/
def publishInit : PublishResult :=
  { success := false, results := [], errors := [], totalAttempts := 0,
    successfulPlatforms := [], failedPlatforms := [] }

/-- One iteration of the `for (const [platformType, platform] of
this.platforms)` loop in `SocialPlugin.publish` (lines 50-80):
`totalAttempts++` on entry, then await the retry-wrapped publish; a resolved
response is recorded as-is (success or failure), a rejection increments
`totalAttempts` again and is converted into a `success=false` response stamped
`now`. -/
def publishStep (retryAttempts now : Nat) (acc : PublishResult)
    (entry : PlatformType × (Nat → Except String SocialResponse)) :
    PublishResult :=
  match publishWithRetry retryAttempts entry.2 with
  | .ok resp =>
    if resp.success then
      { acc with
        totalAttempts := acc.totalAttempts + 1,
        results := acc.results ++ [(entry.1, resp)],
        successfulPlatforms := acc.successfulPlatforms ++ [entry.1] }
    else
      { acc with
        totalAttempts := acc.totalAttempts + 1,
        results := acc.results ++ [(entry.1, resp)],
        failedPlatforms := acc.failedPlatforms ++ [entry.1],
        errors := acc.errors ++ [(entry.1, jsOrElse resp.error ("Unknown error"))] }
  | .error e =>
    { acc with
      totalAttempts := acc.totalAttempts + 2,
      failedPlatforms := acc.failedPlatforms ++ [entry.1],
      errors := acc.errors ++ [(entry.1, e)],
      results := acc.results ++
        [(entry.1,
          { success := false, error := some e, platform := platformName entry.1,
            timestamp := now })] }

/-- The platform loop of `SocialPlugin.publish`. -/
def publishLoop (retryAttempts now : Nat)
    (platforms : List (PlatformType × (Nat → Except String SocialResponse)))
    (acc : PublishResult) : PublishResult :=
  match platforms with
  | [] => acc
  | entry :: rest =>
    publishLoop retryAttempts now rest (publishStep retryAttempts now acc entry)

/-- `SocialPlugin.publish` (social-plugin.ts, lines 41-93): run the loop over
the registered platforms, then set `success := successfulPlatforms.length > 0`. -/
def publish (retryAttempts now : Nat)
    (platforms : List (PlatformType × (Nat → Except String SocialResponse))) :
    PublishResult :=
  let r := publishLoop retryAttempts now platforms publishInit
  { r with success := !r.successfulPlatforms.isEmpty }

/-! ## Backoff delay formulas

Each definition transcribes the delay expression of one retry site in the
source; they are the only places in the repository that compute a backoff. -/

/-- Delay slept by `SocialPlugin.publishWithRetry` (line 122) before attempt
`attempt + 1`: `this.retryDelay * attempt` — linear, despite the adjacent
"Exponential backoff" comment. -/
def publishRetryDelay (retryDelay attempt : Nat) : Nat :=
  retryDelay * attempt

/-- Delay slept by `LlmPlugin.askWithRetry` (llm-plugin source, line 81) after
outer attempt `attempt`: `Math.min(1000 * Math.pow(2, attempt - 1), 10000)`. -/
def askWithRetryDelay (attempt : Nat) : Nat :=
  min (1000 * 2 ^ (attempt - 1)) 10000

/-- Delay slept by `SocialCore.makeRequest` (social-core.ts, line 74) before
every retry: the constant `this.retryDelay`. -/
def coreMakeRequestDelay (retryDelay : Nat) : Nat :=
  retryDelay

/-- Timeout the npm `retry` package computes for the k-th retry (1-based) of
`LlmCore`'s operation (`factor: 2`, `minTimeout: retryDelay`, `maxTimeout:
10000`, no randomisation): `min(minTimeout * factor^(k-1), maxTimeout)`. -/
def retryOperationTimeout (minTimeout k : Nat) : Nat :=
  min (minTimeout * 2 ^ (k - 1)) 10000

/-- The backoff formula in the words of the spec ("sleep
min(D * 2^(attempt-1), cap)" with base delay `D` and cap): the reference the
source's delay sites are compared against. -/
def specBackoffDelay (base cap k : Nat) : Nat :=
  min (base * 2 ^ (k - 1)) cap

/-! ## LLM core (`llm-core.ts`, src/unnamed/part_007) -/

/-- `LlmResponse` (content and model suffice for the dispatch logic). -/
structure LlmResponse where
  content : String
  model : String
deriving DecidableEq, Repr

/-- `LlmError`: the classified error `createLlmError` builds and the plugin
layers branch on. -/
structure LlmError where
  message : String
  code : Option String
  statusCode : Option Nat
  retryable : Bool
deriving DecidableEq, Repr

/-- Raw failure of one HTTP call as axios surfaces it: optional `message`,
optional `code` (for example `"ECONNRESET"`, `"ENOTFOUND"`, `"ECONNABORTED"`
on a timeout), and `error.response?.status` when an HTTP response arrived. -/
structure RawError where
  message : Option String
  code : Option String
  status : Option Nat
deriving DecidableEq, Repr

/-- `LlmCore.isRetryableError` (part_007, lines 165-177): `ECONNRESET` /
`ENOTFOUND` codes are retryable, then statuses >= 500 or 429; everything else
(including an absent status, as on a timeout, where JS `undefined >= 500` is
false) is not. -/
def isRetryableError (e : RawError) : Bool :=
  if e.code == some ("ECONNRESET") || e.code == some ("ENOTFOUND") then
    true
  else
    match e.status with
    | some s => decide (500 ≤ s) || decide (s = 429)
    | none => false

/-- `LlmCore.createLlmError` (part_007, lines 152-163). -/
def createLlmError (e : RawError) (context : String) : LlmError :=
  { message := context ++ " failed: " ++ jsOrElse e.message ("Unknown error"),
    code := some (jsOrElse e.code ("UNKNOWN_ERROR")),
    statusCode := e.status,
    retryable := isRetryableError e }

/-- `LlmCore.makeRequest` (part_007, lines 118-150) around the npm `retry`
package configured with `retries: maxRetries`.  Per that package's semantics,
`operation.retry(err)` schedules another attempt whenever an error value is
passed and retries remain — it never inspects the error's `retryable` field —
and with `retries: n` it allows `n` retries, i.e. up to `n + 1` attempts.
`beh k` is the outcome of the k-th HTTP call; the result is paired with the
number of attempts made. -/
def makeRequestFuel (beh : Nat → Except RawError LlmResponse) (context : String)
    (attempt : Nat) : Nat → Except LlmError LlmResponse × Nat
  | 0 =>
    match beh attempt with
    | .ok v => (.ok v, attempt)
    | .error raw => (.error (createLlmError raw context), attempt)
  | retriesLeft + 1 =>
    match beh attempt with
    | .ok v => (.ok v, attempt)
    | .error _ => makeRequestFuel beh context (attempt + 1) retriesLeft

/-- Entry point of `makeRequest`: attempt 1 with `maxRetries` retries left. -/
def makeRequest (maxRetries : Nat) (beh : Nat → Except RawError LlmResponse)
    (context : String) : Except LlmError LlmResponse × Nat :=
  makeRequestFuel beh context 1 maxRetries

/-! ## LLM plugin (`llm-plugin.ts`, src/unnamed/part_005) -/

/-- `LlmPlugin.ask` (part_005, lines 47-65) over the outcome of the primary's
retry-wrapped dispatch and, when a fallback provider is configured (`some`),
the outcome its dispatch would produce.  Returns the result together with the
number of times the fallback provider was invoked (0 or 1). -/
def ask (primary : Except LlmError LlmResponse)
    (fallback : Option (Except LlmError LlmResponse)) :
    Except LlmError LlmResponse × Nat :=
  match primary with
  | .ok r => (.ok r, 0)
  | .error e =>
    match fallback with
    | some fb =>
      if e.retryable then
        match fb with
        | .ok r => (.ok r, 1)
        | .error _ => (.error e, 1)
      else
        (.error e, 0)
    | none => (.error e, 0)

/-- Behaviour of one iteration of `askWithRetry`'s loop: the primary's outcome
for that iteration and, when configured, the fallback's. -/
structure AskRound where
  primary : Except LlmError LlmResponse
  fallback : Option (Except LlmError LlmResponse)

/-- `LlmPlugin.askWithRetry` (part_005, lines 67-87): `for (attempt = 1;
attempt <= maxRetries; attempt++) try return await this.ask(request) catch:
throw when `attempt === maxRetries || !lastError.retryable`, else sleep and
loop.  `fuel` counts the loop iterations still allowed (initially
`maxRetries`); `none` models the degenerate `throw lastError!` after zero
iterations.  The second component accumulates fallback invocations across the
whole call. -/
def askWithRetryFuel (beh : Nat → AskRound) (maxRetries attempt count : Nat) :
    Nat → Option (Except LlmError LlmResponse) × Nat
  | 0 => (none, count)
  | fuel + 1 =>
    let step := ask (beh attempt).primary (beh attempt).fallback
    match step.1 with
    | .ok r => (some (.ok r), count + step.2)
    | .error e =>
      if attempt == maxRetries || !e.retryable then
        (some (.error e), count + step.2)
      else
        askWithRetryFuel beh maxRetries (attempt + 1) (count + step.2) fuel

/-- Entry point of `askWithRetry`. -/
def askWithRetry (maxRetries : Nat) (beh : Nat → AskRound) :
    Option (Except LlmError LlmResponse) × Nat :=
  askWithRetryFuel beh maxRetries 1 0 maxRetries

/-! ## Timing model of the fan-out loop

`SocialPlugin.publish` iterates `for (const [platformType, platform] of
this.platforms)` and `await`s `publishWithRetry` inside the loop body, so the
call for a target begins only when the previous target's whole retry sequence
has resolved.  With `d` the wall-clock duration of one target's retry-wrapped
call, the completion time of the fan-out is the accumulated clock after the
loop. -/

/-- Clock after sequentially awaiting calls of the given durations, starting
at time `t` (one loop iteration per list entry). -/
def seqFanOutFinishFrom (t : Nat) : List Nat → Nat
  | [] => t
  | d :: rest => seqFanOutFinishFrom (t + d) rest

/-- Completion time of `SocialPlugin.publish`'s loop over targets with the
given per-target durations. -/
def seqFanOutFinish (durations : List Nat) : Nat :=
  seqFanOutFinishFrom 0 durations

/-! ## Platform adapters (`tiktok-platform.ts`, `twitter-platform.ts`)

Each adapter's `publish` wraps its whole body in `try { ... } catch (error)
{ return { success: false, error: error.message, platform, timestamp } }`.
The body is embedded in the `Except String` monad (`throw` = a thrown error's
message); the network outcomes it branches on are supplied by an environment
record. -/

/-- Parsed body of the TikTok create-video response: `result.error` (with its
message) and `result.data.upload_url`. -/
structure TikTokCreateResult where
  error : Option String
  uploadUrl : String
deriving DecidableEq, Repr

/-- Environment of one `TikTokPlatform.publish` call: the adapter's `openId`,
the outcome of the create-video `makeRequest` plus `response.json()`, the
outcome of the video-upload step (`fetchVideoAsBlob` + `makeRequest`, yielding
`uploadResponse.ok`), and the current clock tick. -/
structure TikTokEnv where
  openId : String
  createResult : Except String TikTokCreateResult
  uploadResult : Except String Bool
  now : Nat

/-- Try-block of `TikTokPlatform.publish` (tiktok-platform.ts, lines 27-98):
validate, require video media, create the post, check `result.error`, upload
the video, check `uploadResponse.ok`, then build the success response. -/
def tiktokPublishBody (post : SocialPost) (env : TikTokEnv) :
    Except String SocialResponse :=
  match coreValidatePost post with
  | some m => .error m
  | none =>
    if (match post.media with
        | none => true
        | some l => l.isEmpty) then
      .error ("TikTok requires video content for posts")
    else
      match env.createResult with
      | .error m => .error m
      | .ok result =>
        match result.error with
        | some m => .error ("TikTok API error: " ++ m)
        | none =>
          match env.uploadResult with
          | .error m => .error m
          | .ok okFlag =>
            if !okFlag then
              .error ("Failed to upload video to TikTok")
            else
              .ok { success := true, postId := some result.uploadUrl,
                    url := some ("https://tiktok.com/@" ++ env.openId ++
                      ("/video/") ++ result.uploadUrl),
                    error := none, platform := ("tiktok"), timestamp := env.now }

/-- `TikTokPlatform.publish` (lines 26-109): the try-block's value, or the
catch-block's `success=false` response. -/
def tiktokPublish (post : SocialPost) (env : TikTokEnv) : SocialResponse :=
  match tiktokPublishBody post env with
  | .ok r => r
  | .error m =>
    { success := false, error := some m, platform := "tiktok",
      timestamp := env.now }

/-- Parsed body of the Twitter create-tweet response: `result.errors` (first
message when present) and `result.data.id`. -/
structure TwitterTweetResult where
  errors : Option String
  id : String
deriving DecidableEq, Repr

/-- Environment of one `TwitterPlatform.publish` call: outcome of
`uploadMedia` (media ids, or the first upload failure rethrown), outcome of
the create-tweet `makeRequest` plus `response.json()`, and the clock tick. -/
structure TwitterEnv where
  mediaUpload : Except String (List String)
  tweetResult : Except String TwitterTweetResult
  now : Nat

/-- Try-block of `TwitterPlatform.publish` (twitter-platform.ts, lines 32-76):
validate, upload media when `post.media` is present (`post.media ? await
this.uploadMedia(post.media) : []`), post the tweet, check `result.errors`,
then build the success response. -/
def twitterPublishBody (post : SocialPost) (env : TwitterEnv) :
    Except String SocialResponse :=
  match coreValidatePost post with
  | some m => .error m
  | none =>
    match (match post.media with
           | none => Except.ok []
           | some _ => env.mediaUpload) with
    | .error m => .error m
    | .ok _mediaIds =>
      match env.tweetResult with
      | .error m => .error m
      | .ok result =>
        match result.errors with
        | some m => .error ("Twitter API error: " ++ m)
        | none =>
          .ok { success := true, postId := some result.id,
                url := some ("https://twitter.com/user/status/" ++ result.id),
                error := none, platform := ("twitter"), timestamp := env.now }

/-- `TwitterPlatform.publish` (lines 31-87): try-block value or catch-block
failure response. -/
def twitterPublish (post : SocialPost) (env : TwitterEnv) : SocialResponse :=
  match twitterPublishBody post env with
  | .ok r => r
  | .error m =>
    { success := false, error := some m, platform := "twitter",
      timestamp := env.now }

/-! ## Concrete inputs used by counterexamples and evaluations -/

/-- Discriminator for a rejected retry-wrapped publish. -/
def isThrow : Except String SocialResponse → Bool
  | .error _ => true
  | .ok _ => false

/-- A platform whose `publish` rejects on every call. -/
def alwaysRejectBeh : Nat → Except String SocialResponse :=
  fun _ => Except.error ("boom")

/-- An HTTP 400 (client-kind) failure on every call. -/
def client400Error : RawError :=
  { message := some ("Bad Request"), code := none, status := some 400 }

/-- LLM dispatch behaviour failing with the HTTP 400 error on every attempt. -/
def client400Beh : Nat → Except RawError LlmResponse :=
  fun _ => Except.error client400Error

/-- One `askWithRetry` iteration in which the primary fails with a retryable
server error and the configured fallback also fails. -/
def bothFailRound : AskRound :=
  { primary := Except.error
      { message := ("p"), code := none, statusCode := some 500, retryable := true },
    fallback := some (Except.error
      { message := ("f"), code := none, statusCode := some 503, retryable := true }) }

/-- An axios timeout as raised on deadline expiry: code `ECONNABORTED`
(`ETIMEDOUT` on newer axios), no HTTP response, hence no status. -/
def timeoutError : RawError :=
  { message := some ("timeout of 30000ms exceeded"), code := some ("ECONNABORTED"),
    status := none }

/-- A post whose content is the empty string (fails validation). -/
def emptyPost : SocialPost :=
  { content := some (""), media := none, hashtags := none }

/-- A TikTok environment in which both network steps would succeed. -/
def tiktokEnvOk : TikTokEnv :=
  { openId := ("id"), createResult := Except.ok ⟨none, ("u")⟩,
    uploadResult := Except.ok true, now := 42 }

/-- A Twitter environment in which both network steps would succeed. -/
def twitterEnvOk : TwitterEnv :=
  { mediaUpload := Except.ok [], tweetResult := Except.ok ⟨none, ("7")⟩,
    now := 43 }

/-! # Theorems -/

/-- C2: with a configured secondary provider, `LlmPlugin.ask` returns the
secondary's result when the primary's retry-wrapped dispatch fails retryably
and the secondary succeeds; surfaces the primary's original error when the
secondary also fails; and never invokes the secondary when the primary's
error is non-retryable. -/
theorem C2_fallback_semantics :
    (∀ (e : LlmError) (r : LlmResponse), e.retryable = true →
      ask (Except.error e) (some (Except.ok r)) = (Except.ok r, 1)) ∧
    (∀ (e e' : LlmError), e.retryable = true →
      ask (Except.error e) (some (Except.error e')) = (Except.error e, 1)) ∧
    (∀ (e : LlmError) (fb : Except LlmError LlmResponse), e.retryable = false →
      (ask (Except.error e) (some fb)).1 = Except.error e ∧
        (ask (Except.error e) (some fb)).2 = 0) := by
  refine ⟨fun e r h => ?_, fun e e' h => ?_, fun e fb h => ?_⟩
  · simp [ask, h]
  · simp [ask, h]
  · simp [ask, h]

/-- C2 witness: the three scenarios at concrete errors and results. -/
theorem C2_fallback_semantics_witness :
    ask (Except.error ⟨("boom"), none, some 500, true⟩)
      (some (Except.ok ⟨("hi"), ("m")⟩)) = (Except.ok ⟨("hi"), ("m")⟩, 1) ∧
    ask (Except.error ⟨("boom"), none, some 500, true⟩)
      (some (Except.error ⟨("fb"), none, some 503, true⟩)) =
      (Except.error ⟨("boom"), none, some 500, true⟩, 1) ∧
    (ask (Except.error ⟨("auth"), none, some 401, false⟩)
      (some (Except.ok ⟨("hi"), ("m")⟩))).2 = 0 :=
  ⟨C2_fallback_semantics.1 _ _ rfl, C2_fallback_semantics.2.1 _ _ rfl,
    (C2_fallback_semantics.2.2 _ _ rfl).2⟩

/-- C3: contrary to the claim, the retry layer does retry non-retryable
failures.  On an HTTP 400 (client-kind) error on every attempt with
`maxRetries = 3`, `LlmCore.makeRequest` makes 4 attempts (npm retry's
`operation.retry` never inspects the `retryable` flag, and `retries: 3`
allows 3 retries on top of the first attempt), even though the error is
classified non-retryable; the surfaced error is the last classified one.
`SocialPlugin.publishWithRetry` likewise retries every rejection, making all
3 configured attempts. -/
theorem C3_client_error_retried :
    (makeRequest 3 client400Beh ("ask")).2 = 4 ∧
    (createLlmError client400Error ("ask")).retryable = false ∧
    (makeRequest 3 client400Beh ("ask")).1 =
      Except.error (createLlmError client400Error ("ask")) ∧
    publishAttempts 3 alwaysRejectBeh = 3 :=
  ⟨rfl, rfl, rfl, rfl⟩

/-- C4: the claimed formula `min(D * 2^(k-1), cap)` is not the only backoff
computation.  `SocialPlugin.publishWithRetry` sleeps `retryDelay * attempt`
(linear, despite its own "Exponential backoff" comment): with the default
`D = 1000`, before attempt 4 it sleeps 3000 ms where the formula gives
4000 ms; `SocialCore.makeRequest` sleeps the constant `retryDelay`.  Only
`LlmPlugin.askWithRetry` (and the npm retry timeouts) match the formula. -/
theorem C4_linear_backoff_diverges :
    publishRetryDelay 1000 3 = 3000 ∧
    specBackoffDelay 1000 10000 3 = 4000 ∧
    publishRetryDelay 1000 3 ≠ specBackoffDelay 1000 10000 3 ∧
    coreMakeRequestDelay 1000 ≠ specBackoffDelay 1000 10000 2 ∧
    (∀ attempt, askWithRetryDelay attempt = specBackoffDelay 1000 10000 attempt) ∧
    (∀ minTimeout k, retryOperationTimeout minTimeout k =
      specBackoffDelay minTimeout 10000 k) :=
  ⟨rfl, rfl, by decide, by decide, fun _ => rfl, fun _ _ => rfl⟩

/-- C6 counterexample: a deadline/timeout expiry (axios `ECONNABORTED` or
`ETIMEDOUT`, no HTTP status) is classified NOT retryable by
`isRetryableError`, contradicting the claim that timeouts are retryable
network errors. -/
theorem C6_timeout_not_retryable :
    isRetryableError timeoutError = false ∧
    isRetryableError { timeoutError with code := some ("ETIMEDOUT") } = false :=
  ⟨rfl, rfl⟩

/-- C8 counterexample: through `askWithRetry`'s outer loop the fallback
substitution is NOT limited to once per logical request: with `maxRetries =
2` and both providers failing retryably on every round, the fallback provider
is invoked twice. -/
theorem C8_fallback_twice :
    (askWithRetry 2 (fun _ => bothFailRound)).2 = 2 ∧
    ¬((askWithRetry 2 (fun _ => bothFailRound)).2 ≤ 1) :=
  ⟨rfl, by decide⟩

/-- C9 counterexample (cost model of the sequential loop): two targets whose
retry-wrapped calls take 5 and 7 ticks complete at tick 12, which exceeds
the claimed bound — the slowest single target's duration, 7. -/
theorem C9_sequential_counterexample :
    seqFanOutFinish [5, 7] = 12 ∧
    List.foldr Nat.max 0 [5, 7] = 7 ∧
    ¬(seqFanOutFinish [5, 7] ≤ List.foldr Nat.max 0 [5, 7]) :=
  ⟨rfl, rfl, by decide⟩

/-- Helper: `ask` invokes the fallback provider at most once. -/
lemma ask_invocations_le_one (p : Except LlmError LlmResponse)
    (f : Option (Except LlmError LlmResponse)) : (ask p f).2 ≤ 1 := by
  rcases p with e | r
  · rcases f with _ | fb
    · simp [ask]
    · rcases fb with e' | r' <;> simp [ask] <;> split <;> simp
  · simp [ask]

/-- Helper: the fallback-invocation count of the `askWithRetry` loop is
bounded by the accumulator plus the remaining iterations. -/
lemma askWithRetryFuel_count_le (beh : Nat → AskRound) (m : Nat) :
    ∀ (fuel a c : Nat), (askWithRetryFuel beh m a c fuel).2 ≤ c + fuel := by
  intro fuel
  induction fuel with
  | zero => intro a c; simp [askWithRetryFuel]
  | succ n ih =>
    intro a c
    have hstep := ask_invocations_le_one (beh a).primary (beh a).fallback
    simp only [askWithRetryFuel]
    rcases h : (ask (beh a).primary (beh a).fallback).1 with e | r
    · simp only [h]
      split
      · simp only
        omega
      · calc (askWithRetryFuel beh m (a + 1) (c + (ask (beh a).primary (beh a).fallback).2) n).2
            ≤ c + (ask (beh a).primary (beh a).fallback).2 + n := ih _ _
          _ ≤ c + (n + 1) := by omega
    · simp only [h]
      omega

/-- C8 (amended): the fallback substitution happens at most once per `ask`
invocation; through `askWithRetry` with `maxRetries = m` the fallback may be
invoked once per outer attempt, hence at most `m` times in total. -/
theorem C8_fallback_per_round :
    (∀ (p : Except LlmError LlmResponse)
        (f : Option (Except LlmError LlmResponse)), (ask p f).2 ≤ 1) ∧
    (∀ (m : Nat) (beh : Nat → AskRound), (askWithRetry m beh).2 ≤ m) := by
  refine ⟨ask_invocations_le_one, fun m beh => ?_⟩
  have h := askWithRetryFuel_count_le beh m m 1 0
  simpa [askWithRetry] using h

/-- Helper: sequentially awaiting calls accumulates their durations. -/
lemma seqFanOutFinishFrom_eq (ds : List Nat) :
    ∀ t, seqFanOutFinishFrom t ds = t + ds.sum := by
  induction ds with
  | nil => intro t; simp [seqFanOutFinishFrom]
  | cons d rest ih =>
    intro t
    simp [seqFanOutFinishFrom, ih, List.sum_cons]
    omega

/-- C9 (amended): `SocialPlugin.publish` awaits each target's retry-wrapped
call inside the loop, so the fan-out completes only after the SUM of all
targets' durations — sequential iteration with waiting, not concurrent
dispatch bounded by the slowest target. -/
theorem C9_sequential_sum (durations : List Nat) :
    seqFanOutFinish durations = durations.sum := by
  simp [seqFanOutFinish, seqFanOutFinishFrom_eq]

/-- Helper: one loop iteration of `publish` adds 1 to `totalAttempts` when the
retry-wrapped publish resolves, 2 when it rejects. -/
lemma publishStep_totalAttempts (ra now : Nat) (acc : PublishResult)
    (e : PlatformType × (Nat → Except String SocialResponse)) :
    (publishStep ra now acc e).totalAttempts =
      acc.totalAttempts + (if isThrow (publishWithRetry ra e.2) then 2 else 1) := by
  rcases h : publishWithRetry ra e.2 with m | resp
  · simp [publishStep, h, isThrow]
  · by_cases hs : resp.success <;> simp [publishStep, h, isThrow, hs]

/-- Helper: `totalAttempts` over the whole loop. -/
lemma publishLoop_totalAttempts (ra now : Nat)
    (ps : List (PlatformType × (Nat → Except String SocialResponse))) :
    ∀ acc, (publishLoop ra now ps acc).totalAttempts =
      acc.totalAttempts + ps.length +
        ps.countP (fun e => isThrow (publishWithRetry ra e.2)) := by
  induction ps with
  | nil => intro acc; simp [publishLoop]
  | cons e rest ih =>
    intro acc
    simp only [publishLoop, ih, publishStep_totalAttempts, List.length_cons,
      List.countP_cons]
    split <;> omega

/-- C7 counterexample: one registered target that rejects every call with
`retryAttempts = 3` actually makes 3 dispatch attempts, but the returned
`totalAttempts` is 2 (1 on loop entry + 1 in the catch): `totalAttempts`
never counts retries. -/
theorem C7_totalAttempts_counterexample :
    (publish 3 0 [(PlatformType.tiktok, alwaysRejectBeh)]).totalAttempts = 2 ∧
    publishAttempts 3 alwaysRejectBeh = 3 ∧
    (publish 3 0 [(PlatformType.tiktok, alwaysRejectBeh)]).totalAttempts ≠
      publishAttempts 3 alwaysRejectBeh :=
  ⟨rfl, rfl, by decide⟩

/-- C7 (amended): `totalAttempts` equals the number of registered targets plus
the number of targets whose retry-wrapped publish rejected (those are counted
twice); dispatch retries inside `publishWithRetry` are not counted. -/
theorem C7_totalAttempts_formula (ra now : Nat)
    (ps : List (PlatformType × (Nat → Except String SocialResponse))) :
    (publish ra now ps).totalAttempts =
      ps.length + ps.countP (fun e => isThrow (publishWithRetry ra e.2)) := by
  simp [publish, publishLoop_totalAttempts, publishInit]

/-- C6 (amended): classification is a deterministic function of the raw
failure — `ECONNRESET` / `ENOTFOUND` codes and 5xx / 429 statuses are
retryable, and every other failure, including timeouts (which carry no HTTP
status) and all other 4xx statuses, is non-retryable; `createLlmError`
derives `retryable` from exactly this function. -/
theorem C6_classification_table (e : RawError) :
    (isRetryableError e = true ↔
      (e.code = some ("ECONNRESET") ∨ e.code = some ("ENOTFOUND") ∨
        ∃ s, e.status = some s ∧ (500 ≤ s ∨ s = 429))) ∧
    (∀ ctx, (createLlmError e ctx).retryable = isRetryableError e) := by
  constructor
  · rcases e with ⟨m, c, st⟩
    simp only [isRetryableError]
    split
    · rename_i h
      simp only [Bool.or_eq_true, beq_iff_eq] at h
      rcases h with h | h <;> simp [h]
    · rename_i h
      simp only [Bool.or_eq_true, beq_iff_eq] at h
      push_neg at h
      rcases st with _ | s
      · simp [h.1, h.2]
      · simp [h.1, h.2]
  · intro ctx
    rfl

/-- Helper: one loop iteration appends exactly one result entry for its
platform, and extends `successfulPlatforms` exactly when that entry's
response is a success. -/
lemma publishStep_shape (ra now : Nat) (acc : PublishResult)
    (e : PlatformType × (Nat → Except String SocialResponse)) :
    ∃ resp, (publishStep ra now acc e).results = acc.results ++ [(e.1, resp)] ∧
      (publishStep ra now acc e).successfulPlatforms =
        (if resp.success = true then acc.successfulPlatforms ++ [e.1]
         else acc.successfulPlatforms) := by
  rcases h : publishWithRetry ra e.2 with m | resp
  · refine
      ⟨{ success := false, error := some m, platform := platformName e.1, timestamp := now },
        ?_, ?_⟩ <;>
      simp [publishStep, h]
  · by_cases hs : resp.success = true
    · exact ⟨resp, by simp [publishStep, h, hs], by simp [publishStep, h, hs]⟩
    · have hs' : resp.success = false := by simpa using hs
      exact ⟨resp, by simp [publishStep, h, hs'], by simp [publishStep, h, hs']⟩

/-- Helper: the loop preserves the key list of `results`. -/
lemma publishLoop_keys (ra now : Nat)
    (ps : List (PlatformType × (Nat → Except String SocialResponse))) :
    ∀ acc, (publishLoop ra now ps acc).results.map Prod.fst =
      acc.results.map Prod.fst ++ ps.map Prod.fst := by
  induction ps with
  | nil => intro acc; simp [publishLoop]
  | cons e rest ih =>
    intro acc
    obtain ⟨resp, hres, -⟩ := publishStep_shape ra now acc e
    simp [publishLoop, ih, hres]

/-- Helper: the loop preserves the invariant "no successful platform recorded
iff every recorded response is a failure". -/
lemma publishLoop_inv (ra now : Nat)
    (ps : List (PlatformType × (Nat → Except String SocialResponse))) :
    ∀ acc,
      (acc.successfulPlatforms = [] ↔ ∀ pr ∈ acc.results, pr.2.success = false) →
      ((publishLoop ra now ps acc).successfulPlatforms = [] ↔
        ∀ pr ∈ (publishLoop ra now ps acc).results, pr.2.success = false) := by
  induction ps with
  | nil => intro acc h; simpa [publishLoop] using h
  | cons e rest ih =>
    intro acc h
    refine ih _ ?_
    obtain ⟨resp, hres, hsucc⟩ := publishStep_shape ra now acc e
    rw [hres, hsucc]
    by_cases hs : resp.success = true
    · rw [if_pos hs]
      refine iff_of_false (by simp) ?_
      intro hall
      have := hall (e.1, resp) (by simp)
      rw [hs] at this
      exact absurd this (by simp)
    · rw [if_neg hs, h]
      have hs' : resp.success = false := by simpa using hs
      constructor
      · intro hall pr hpr
        rcases List.mem_append.1 hpr with h1 | h1
        · exact hall pr h1
        · have hpr2 : pr = (e.1, resp) := by simpa using h1
          rw [hpr2]
          exact hs'
      · intro hall pr hpr
        exact hall pr (List.mem_append_left _ hpr)

/-- C1: `publish` never fails as a whole — it returns a result whose outcomes
map has exactly one entry per registered target, in registry order (rejections
included, converted into failure outcomes), and whose aggregate `success`
flag is true iff at least one recorded outcome succeeded. -/
theorem C1_publish_total_isolation (ra now : Nat)
    (ps : List (PlatformType × (Nat → Except String SocialResponse))) :
    ((publish ra now ps).results.map Prod.fst = ps.map Prod.fst) ∧
    ((publish ra now ps).success = true ↔
      ∃ pr ∈ (publish ra now ps).results, pr.2.success = true) := by
  have hinv := publishLoop_inv ra now ps publishInit (by simp [publishInit])
  have hsucc : (publish ra now ps).success =
      !(publishLoop ra now ps publishInit).successfulPlatforms.isEmpty := rfl
  have hres : (publish ra now ps).results =
      (publishLoop ra now ps publishInit).results := rfl
  constructor
  · rw [hres, publishLoop_keys]
    simp [publishInit]
  · rw [hsucc, hres]
    constructor
    · intro hs
      have hne : (publishLoop ra now ps publishInit).successfulPlatforms ≠ [] := by
        intro h0
        rw [h0] at hs
        simp at hs
      by_contra hnone
      push_neg at hnone
      have hall : ∀ pr ∈ (publishLoop ra now ps publishInit).results,
          pr.2.success = false := fun pr hpr => by simpa using hnone pr hpr
      exact hne (hinv.2 hall)
    · rintro ⟨pr, hpr, hs⟩
      have hne : (publishLoop ra now ps publishInit).successfulPlatforms ≠ [] := by
        intro h0
        have hfalse := hinv.1 h0 pr hpr
        rw [hs] at hfalse
        exact absurd hfalse (by simp)
      simpa [List.isEmpty_iff] using hne

/-- Helper: messages thrown by `SocialCore.validatePost` range over exactly
three strings. -/
lemma coreValidatePost_cases (post : SocialPost) (m : String)
    (h : coreValidatePost post = some m) :
    m = contentEmptyMsg ∨ m = coreTooLongMsg ∨ m = tooManyMediaMsg := by
  unfold coreValidatePost at h
  split at h
  · injection h with h
    exact Or.inl h.symm
  · split at h
    · injection h with h
      exact Or.inr (Or.inl h.symm)
    · split at h
      · injection h with h
        exact Or.inr (Or.inr h.symm)
      · cases h

/-- Helper: a platform-prefixed hook message never coincides with one of the
three plugin-level messages. -/
lemma hook_msg_ne (pt : PlatformType) (m : String)
    (hm : m = contentEmptyMsg ∨ m = coreTooLongMsg ∨ m = tooManyMediaMsg) :
    platformName pt ++ ": " ++ m ≠ contentEmptyMsg ∧
    platformName pt ++ ": " ++ m ≠ contentTooLongMsg ∧
    platformName pt ++ ": " ++ m ≠ tooManyMediaMsg := by
  rcases hm with h | h | h <;> subst h <;> cases pt <;>
    exact ⟨by decide, by decide, by decide⟩

/-- Helper: every hook error is some platform-prefixed core message. -/
lemma mem_hookErrors_shape (platforms : List PlatformType) (post : SocialPost)
    (x : String) (h : x ∈ hookErrors platforms post) :
    ∃ pt m, pt ∈ platforms ∧ coreValidatePost post = some m ∧
      x = platformName pt ++ ": " ++ m := by
  obtain ⟨pt, hpt, hx⟩ := List.mem_filterMap.1 h
  obtain ⟨m, hsome, heq⟩ := Option.map_eq_some'.1 hx
  exact ⟨pt, m, hpt, hsome, heq.symm⟩

/-- Helper: none of the three plugin-level messages occurs among the hook
errors. -/
lemma base_not_mem_hookErrors (platforms : List PlatformType) (post : SocialPost) :
    contentEmptyMsg ∉ hookErrors platforms post ∧
    contentTooLongMsg ∉ hookErrors platforms post ∧
    tooManyMediaMsg ∉ hookErrors platforms post := by
  refine ⟨fun h => ?_, fun h => ?_, fun h => ?_⟩ <;>
  · obtain ⟨pt, m, -, hsome, heq⟩ := mem_hookErrors_shape _ _ _ h
    have hne := hook_msg_ne pt m (coreValidatePost_cases post m hsome)
    first
      | exact hne.1 heq.symm
      | exact hne.2.1 heq.symm
      | exact hne.2.2 heq.symm

/-- Helper: membership of each plugin-level message in the basic error list is
equivalent to its check. -/
lemma mem_baseErrors_iff (post : SocialPost) :
    (contentEmptyMsg ∈ baseErrors post ↔ contentEmptyCheck post.content = true) ∧
    (contentTooLongMsg ∈ baseErrors post ↔ contentTooLongCheck post.content = true) ∧
    (tooManyMediaMsg ∈ baseErrors post ↔ tooManyMediaCheck post.media = true) := by
  have d12 : contentEmptyMsg ≠ contentTooLongMsg := by decide
  have d13 : contentEmptyMsg ≠ tooManyMediaMsg := by decide
  have d23 : contentTooLongMsg ≠ tooManyMediaMsg := by decide
  by_cases h1 : contentEmptyCheck post.content <;>
    by_cases h2 : contentTooLongCheck post.content <;>
      by_cases h3 : tooManyMediaCheck post.media <;>
        simp [baseErrors, h1, h2, h3, d12, d13, d23, d12.symm, d13.symm, d23.symm]

/-- Helper: the content-empty condition holds exactly for absent content or
content that trims to the empty string. -/
lemma contentEmptyCheck_iff (c : Option String) :
    contentEmptyCheck c = true ↔
      (c = none ∨ ∃ s, c = some s ∧ (jsTrim s).length = 0) := by
  rcases c with _ | s
  · simp [contentEmptyCheck, jsTruthy]
  · simp only [contentEmptyCheck, jsTruthy, Bool.not_not, Bool.or_eq_true,
      beq_iff_eq, Option.some.injEq, reduceCtorEq, false_or]
    constructor
    · rintro (rfl | h)
      · exact ⟨_, rfl, by decide⟩
      · exact ⟨s, rfl, by simpa using h⟩
    · rintro ⟨s', hs', hlen⟩
      cases hs'
      exact Or.inr (by simpa using hlen)

/-- Helper: the too-long condition holds exactly for present content longer
than 5000 characters. -/
lemma contentTooLongCheck_iff (c : Option String) :
    contentTooLongCheck c = true ↔ ∃ s, c = some s ∧ 5000 < s.length := by
  rcases c with _ | s
  · simp [contentTooLongCheck, jsTruthy, lengthOver5000]
  · simp only [contentTooLongCheck, jsTruthy, lengthOver5000, Bool.and_eq_true,
      Bool.not_eq_true', beq_eq_false_iff_ne, ne_eq, decide_eq_true_eq,
      Option.some.injEq]
    constructor
    · rintro ⟨-, h⟩
      exact ⟨s, rfl, h⟩
    · rintro ⟨s', hs', hlen⟩
      subst hs'
      refine ⟨fun heq => ?_, hlen⟩
      rw [heq] at hlen
      exact absurd hlen (by decide)

/-- Helper: the too-many-media condition holds exactly for a present media
list of more than 10 entries. -/
lemma tooManyMediaCheck_iff (m : Option (List String)) :
    tooManyMediaCheck m = true ↔ ∃ l, m = some l ∧ 10 < l.length := by
  rcases m with _ | l <;> simp [tooManyMediaCheck]

/-- C5 counterexample: the whitespace-only content `" "` is neither absent nor
empty, yet `validatePost` reports the content-empty error (and `valid=false`)
because the code tests `content.trim().length === 0` — the claim's "exactly
when content is absent or empty" fails. -/
theorem C5_whitespace_counterexample :
    (validatePost [] { content := some (" "), media := none, hashtags := none }).2 =
      [contentEmptyMsg] ∧
    (validatePost [] { content := some (" "), media := none, hashtags := none }).1 =
      false ∧
    some (" ") ≠ (none : Option String) ∧
    (" ") ≠ ("") :=
  ⟨by decide, by decide, by decide, by decide⟩

/-- C5 (amended): `validatePost` collects, without short-circuiting, the
content-empty error exactly when content is absent or trims to the empty
string (empty or whitespace-only), the too-long error exactly when content
exceeds 5000 characters (5000 itself valid), the too-many-media error exactly
when more than 10 media entries are present (10 itself valid), and `valid` is
true iff the collected error list is empty. -/
theorem C5_validate_complete (platforms : List PlatformType) (post : SocialPost) :
    (contentEmptyMsg ∈ (validatePost platforms post).2 ↔
      (post.content = none ∨ ∃ s, post.content = some s ∧ (jsTrim s).length = 0)) ∧
    (contentTooLongMsg ∈ (validatePost platforms post).2 ↔
      (∃ s, post.content = some s ∧ 5000 < s.length)) ∧
    (tooManyMediaMsg ∈ (validatePost platforms post).2 ↔
      (∃ l, post.media = some l ∧ 10 < l.length)) ∧
    ((validatePost platforms post).1 = true ↔ (validatePost platforms post).2 = []) := by
  have hsplit : (validatePost platforms post).2 =
      baseErrors post ++ hookErrors platforms post := rfl
  have hbase := mem_baseErrors_iff post
  have hhook := base_not_mem_hookErrors platforms post
  refine ⟨?_, ?_, ?_, ?_⟩
  · rw [hsplit, List.mem_append, ← contentEmptyCheck_iff, ← hbase.1]
    exact or_iff_left hhook.1
  · rw [hsplit, List.mem_append, ← contentTooLongCheck_iff, ← hbase.2.1]
    exact or_iff_left hhook.2.1
  · rw [hsplit, List.mem_append, ← tooManyMediaCheck_iff, ← hbase.2.2]
    exact or_iff_left hhook.2.2
  · have hfst : (validatePost platforms post).1 =
        (baseErrors post ++ hookErrors platforms post).isEmpty := rfl
    rw [hfst, hsplit, List.isEmpty_iff]

/-- C10: the TikTok and Twitter adapters never throw: any failure of the
try-block — a payload-validation throw included — is caught and returned as a
`SocialResponse` with `success=false`, the error message, the platform name
and a completion timestamp. -/
theorem C10_adapters_catch_all (post : SocialPost) (tEnv : TikTokEnv)
    (wEnv : TwitterEnv) :
    (∀ m, tiktokPublishBody post tEnv = Except.error m →
      tiktokPublish post tEnv =
        { success := false, error := some m, platform := ("tiktok"),
          timestamp := tEnv.now }) ∧
    (∀ m, coreValidatePost post = some m →
      tiktokPublishBody post tEnv = Except.error m) ∧
    (∀ m, twitterPublishBody post wEnv = Except.error m →
      twitterPublish post wEnv =
        { success := false, error := some m, platform := ("twitter"),
          timestamp := wEnv.now }) ∧
    (∀ m, coreValidatePost post = some m →
      twitterPublishBody post wEnv = Except.error m) := by
  refine ⟨fun m h => ?_, fun m h => ?_, fun m h => ?_, fun m h => ?_⟩
  · simp [tiktokPublish, h]
  · simp [tiktokPublishBody, h]
  · simp [twitterPublish, h]
  · simp [twitterPublishBody, h]

/-- C10 witness: an empty-content post is rejected by validation and both
adapters return the caught failure response. -/
theorem C10_adapters_catch_all_witness :
    tiktokPublish emptyPost tiktokEnvOk =
      { success := false, error := some contentEmptyMsg, platform := ("tiktok"),
        timestamp := 42 } ∧
    twitterPublish emptyPost twitterEnvOk =
      { success := false, error := some contentEmptyMsg, platform := ("twitter"),
        timestamp := 43 } := by
  have h := C10_adapters_catch_all emptyPost tiktokEnvOk twitterEnvOk
  exact ⟨h.1 contentEmptyMsg (h.2.1 contentEmptyMsg rfl),
    h.2.2.1 contentEmptyMsg (h.2.2.2 contentEmptyMsg rfl)⟩

end MarketingAgent
